import Mathlib

/-!
Verification of the cart-synchronization, A/B-assignment and recently-viewed
logic of the turnset-clean storefront, as a shallow embedding in Lean 4.

Conventions of the embedding:
- Pure TypeScript functions become Lean functions on the same data.
- JavaScript 32-bit integer wrapping (`<<`, `&`) is made explicit with `toInt32`
  over `Int`.
- The result of `JSON.parse` on a stored string is passed in as an
  `Except String Json` value: `Except.error` models the exception thrown on an
  unparsable string, `Except.ok` the parsed value.
- Stateful client code (React state + localStorage) becomes explicit state
  passing over `ClientCartState`; each client function is one big-step
  transition (the transient `isLoading` flag, true only inside a step, is not
  modelled).
- The remote commerce backend is out of scope of the repository and is modelled
  as an explicit store (`Backend`) whose rendered carts follow the documented
  backend contract; the repository functions layered on it are translated from
  the source.
-/

/-- Json is a minimal model of JavaScript JSON values, enough to describe what
`JSON.parse` can return for the stored recently-viewed record. -/
inductive Json where
  | jnull : Json
  | jbool : Bool → Json
  | jnum : Int → Json
  | jstr : String → Json
  | jarr : List Json → Json

/-- Json.isArr tests whether a JSON value is an array (`Array.isArray`). -/
def Json.isArr : Json → Bool
  | .jarr _ => true
  | _ => false

/-- MAX_RECENT_ITEMS is the recently-viewed cap from src/lib/recently-viewed.ts. -/
def MAX_RECENT_ITEMS : Nat := 3

/-- getRecentlyViewedLocal embeds `getRecentlyViewed` of
src/lib/recently-viewed.ts (localStorage tier). The argument is the stored
value: `none` when the key is absent, `some (Except.error e)` when `JSON.parse`
throws, `some (Except.ok j)` when it parses to `j`. The try/catch in the source
turns a parse exception into `[]`; a non-array parse returns `[]`; an array is
filtered down to its string elements. -/
def getRecentlyViewedLocal (stored : Option (Except String Json)) : List String :=
  match stored with
  | none => []
  | some (Except.error _) => []
  | some (Except.ok (Json.jarr items)) =>
      items.filterMap (fun j => match j with | Json.jstr s => some s | _ => none)
  | some (Except.ok _) => []

/-- getRecentlyViewedCookie embeds `getRecentlyViewed` of src/unnamed/part_008
(cookie tier). The source returns `[]` when the cookie is missing, but calls
`JSON.parse(recentlyViewed.value)` with no try/catch and returns the parsed
value unvalidated, so a parse exception propagates to the caller; the result
type is therefore `Except String Json`. -/
def getRecentlyViewedCookie (stored : Option (Except String Json)) : Except String Json :=
  match stored with
  | none => Except.ok (Json.jarr [])
  | some r => r

/-- addToRecentlyViewed embeds `addToRecentlyViewed` of
src/lib/recently-viewed.ts and src/unnamed/part_008 (both tiers compute the
same list): remove existing occurrences of the handle, prepend it, cap at
MAX_RECENT_ITEMS. The current list is passed explicitly instead of being read
from storage. -/
def addToRecentlyViewed (handle : String) (current : List String) : List String :=
  (handle :: current.filter (fun h => h ≠ handle)).take MAX_RECENT_ITEMS

/-- toInt32 wraps an integer to JavaScript signed 32-bit range, the effect of
`x | 0`, `x & x` and of the implicit ToInt32 in the `<<` operator. -/
def toInt32 (x : Int) : Int :=
  if x % 4294967296 < 2147483648 then x % 4294967296 else x % 4294967296 - 4294967296

/-- hashStep is one loop iteration of the hash in `assignVariant`
(src/middleware.ts): `hash = (hash << 5) - hash + char; hash = hash & hash`.
The shift wraps its result to 32 bits, the subtraction and addition are exact,
and `hash & hash` wraps the sum back to 32 bits. -/
def hashStep (hash : Int) (c : Nat) : Int :=
  toInt32 (toInt32 (hash * 32) - hash + c)

/-- hashIdentifier is the full hash loop of `assignVariant` over the UTF-16
code units of the user identifier, starting from 0. -/
def hashIdentifier (userIdentifier : List Nat) : Int :=
  userIdentifier.foldl hashStep 0

/-- claimHashStep is the per-character update as the specification words it:
hash shifted left by 5, minus hash, plus the character code, wrapped to a
signed 32-bit integer in one step. Stated separately from `hashStep` so the
agreement of source and specification can be proved. -/
def claimHashStep (hash : Int) (c : Nat) : Int :=
  toInt32 (hash * 2 ^ 5 - hash + c)

/-- ABTest mirrors one entry of the AB_TESTS table in src/middleware.ts. -/
structure ABTest where
  name : String
  variants : List String
  cookieName : String
deriving DecidableEq, Repr

/-- heroCta is the single declared test of the AB_TESTS table. -/
def heroCta : ABTest :=
  { name := "hero-cta-test"
    variants := ["control", "variant-a"]
    cookieName := "ab_hero_cta" }

/-- AB_TESTS is the declared test table of src/middleware.ts. -/
def AB_TESTS : List ABTest := [heroCta]

/-- assignVariant embeds `assignVariant` of src/middleware.ts: hash the user
identifier, take the absolute value modulo the number of variants, and index
into the variant list. The source indexes `test.variants[index]` directly; the
index is always in range because every declared test has a nonempty variant
list, so the `getD` default is never taken. -/
def assignVariant (test : ABTest) (userIdentifier : List Nat) : String :=
  test.variants.getD ((hashIdentifier userIdentifier).natAbs % test.variants.length) ""

/-- SetCookieOpts records the arguments of `response.cookies.set` in the
middleware. -/
structure SetCookieOpts where
  value : String
  path : String
  maxAge : Nat
  httpOnly : Bool
  sameSite : String
  secure : Bool
deriving DecidableEq, Repr

/-- TestOutcome is the per-test effect of the middleware loop body: the value
mirrored into the x-ab response header, and the cookie write if one happens. -/
structure TestOutcome where
  headerValue : String
  setCookie : Option SetCookieOpts
deriving DecidableEq, Repr

/-- assignCookie is the reassignment branch of the middleware loop body in
src/middleware.ts: compute the variant and set the cookie with path "/",
30-day max-age, httpOnly false, lax same-site, secure only in production. -/
def assignCookie (isProd : Bool) (test : ABTest) (userIdentifier : List Nat) : TestOutcome :=
  let variant := assignVariant test userIdentifier
  { headerValue := variant
    setCookie := some
      { value := variant
        path := "/"
        maxAge := 60 * 60 * 24 * 30
        httpOnly := false
        sameSite := "lax"
        secure := isProd } }

/-- processABTest embeds one iteration of the middleware loop over AB_TESTS:
if the request cookie exists, is truthy (nonempty) and its value is one of the
declared variants, reuse it and write no cookie; otherwise assign and set. -/
def processABTest (isProd : Bool) (test : ABTest) (requestCookie : Option String)
    (userIdentifier : List Nat) : TestOutcome :=
  match requestCookie with
  | some existingVariant =>
      if existingVariant ≠ "" ∧ existingVariant ∈ test.variants then
        { headerValue := existingVariant, setCookie := none }
      else
        assignCookie isProd test userIdentifier
  | none => assignCookie isProd test userIdentifier

/-- middlewareRun embeds the middleware of src/middleware.ts over all declared
tests: the request cookie jar is a lookup from cookie name to value. -/
def middlewareRun (isProd : Bool) (requestCookies : String → Option String)
    (userIdentifier : List Nat) : List (String × TestOutcome) :=
  AB_TESTS.map (fun t =>
    (t.cookieName, processABTest isProd t (requestCookies t.cookieName) userIdentifier))

/-- charsHavePre decides whether the first list is a leading segment of the
second, the character-level content of `String.startsWith`. -/
def charsHavePre : List Char → List Char → Bool
  | [], _ => true
  | _ :: _, [] => false
  | p :: ps, c :: cs => p = c && charsHavePre ps cs

/-- charsContain decides whether the second list occurs contiguously inside the
first, the character-level content of JavaScript `String.prototype.includes`. -/
def charsContain : List Char → List Char → Bool
  | [], pat => pat.isEmpty
  | c :: cs, pat => charsHavePre pat (c :: cs) || charsContain cs pat

/-- jsIncludes models `message.includes(pattern)` from the cart context. -/
def jsIncludes (s pat : String) : Bool :=
  charsContain s.data pat.data

/-- jsStarts models `cookie.startsWith(pattern)` from the A/B reader. -/
def jsStarts (s pat : String) : Bool :=
  charsHavePre pat.data s.data

/-- splitOnCharAux is the accumulator loop behind `jsSplitOnChar`. -/
def splitOnCharAux (sep : Char) : List Char → List Char → List (List Char)
  | [], acc => [acc.reverse]
  | c :: cs, acc =>
      if c = sep then acc.reverse :: splitOnCharAux sep cs []
      else splitOnCharAux sep cs (c :: acc)

/-- jsSplitOnChar models JavaScript `s.split(sep)` for a one-character
separator, as used by `cookie.split("=")` in the A/B reader. -/
def jsSplitOnChar (s : String) (sep : Char) : List String :=
  (splitOnCharAux sep s.data []).map (fun l => ⟨l⟩)

/-- getABVariant embeds `getABVariant` of src/unnamed/part_009. The cookie jar
is passed as the list of entries that `document.cookie.split("; ")` yields
(each entry of the form name=value); `hasWindow` models the
`typeof window === "undefined"` guard. The source takes the first entry that
starts with the cookie name followed by "=", extracts the text between the
first and second "=", and falls back to the default on a falsy (empty) value. -/
def getABVariant (hasWindow : Bool) (cookieEntries : List String)
    (cookieName : String) (defaultValue : String) : String :=
  if hasWindow = false then defaultValue
  else
    match cookieEntries.find? (fun c => jsStarts c (cookieName ++ "=")) with
    | none => defaultValue
    | some cookie =>
        let value := (jsSplitOnChar cookie '=').getD 1 ""
        if value = "" then defaultValue else value

/-- useABVariant embeds `useABVariant` of src/unnamed/part_009: guard on the
window then delegate to `getABVariant`. -/
def useABVariant (hasWindow : Bool) (cookieEntries : List String)
    (cookieName : String) (defaultValue : String) : String :=
  if hasWindow = false then defaultValue
  else getABVariant hasWindow cookieEntries cookieName defaultValue

/-- getABVariantServer embeds `getABVariantServer` of src/unnamed/part_009:
read the cookie store and return "control" when the cookie is absent or its
value is falsy; this reader has no default parameter. -/
def getABVariantServer (cookieStore : String → Option String) (cookieName : String) : String :=
  match cookieStore cookieName with
  | none => "control"
  | some v => if v = "" then "control" else v

/-- CartLine mirrors the CartLine shape of src/lib/cart-server.ts, with the
GraphQL edges/node wrapper flattened and the merchandise fields reduced to the
variant identifier (the display fields play no role in any verified claim). -/
structure CartLine where
  id : String
  quantity : Nat
  merchandiseId : String
deriving DecidableEq, Repr

/-- Cart mirrors the Cart shape of src/lib/cart-server.ts: id, checkoutUrl,
totalQuantity and the list of lines (cost is a display field and is omitted). -/
structure Cart where
  id : String
  checkoutUrl : String
  totalQuantity : Nat
  lines : List CartLine
deriving DecidableEq, Repr

/-- cartInv is the Cart invariant of the data model: totalQuantity equals the
sum of the line quantities. -/
def cartInv (c : Cart) : Prop :=
  c.totalQuantity = (c.lines.map (fun l => l.quantity)).sum

/-- BackendLine is one stored line of the modelled commerce backend. -/
structure BackendLine where
  merchandiseId : String
  quantity : Nat
deriving DecidableEq, Repr

/-- CartStore is the modelled backend cart table: association list from cart id
to its stored lines. -/
abbrev CartStore : Type := List (String × List BackendLine)

/-- Backend models the remote commerce service state: the cart table plus a
counter used to mint fresh cart ids. The backend itself is an external
collaborator of the repository; it is modelled, not translated. -/
structure Backend where
  carts : CartStore
  counter : Nat

/-- mkCartId mints the id of the n-th created cart in the backend model. -/
def mkCartId (n : Nat) : String :=
  "gid-cart-" ++ toString n

/-- mkLineId is the backend-issued id of the i-th line of a cart. -/
def mkLineId (cartId : String) (i : Nat) : String :=
  cartId ++ "-line-" ++ toString i

/-- renderCart renders a stored cart into the response Cart shape. Following
the documented backend contract, totalQuantity is computed as the sum of the
line quantities; the repository never computes this field itself. -/
def renderCart (cartId : String) (ls : List BackendLine) : Cart :=
  { id := cartId
    checkoutUrl := "https://checkout.example/" ++ cartId
    totalQuantity := (ls.map (fun l => l.quantity)).sum
    lines := ls.enum.map (fun p => ⟨mkLineId cartId p.1, p.2.quantity, p.2.merchandiseId⟩) }

/-- storeFind looks a cart up by id (first match). -/
def storeFind : CartStore → String → Option (List BackendLine)
  | [], _ => none
  | (i, ls) :: rest, cartId => if i = cartId then some ls else storeFind rest cartId

/-- storeAdd appends one line to the first cart with the given id. -/
def storeAdd : CartStore → String → BackendLine → CartStore
  | [], _, _ => []
  | (i, ls) :: rest, cartId, l =>
      if i = cartId then (i, ls ++ [l]) :: rest else (i, ls) :: storeAdd rest cartId l

/-- storeSet replaces the lines of the first cart with the given id. -/
def storeSet : CartStore → String → List BackendLine → CartStore
  | [], _, _ => []
  | (i, ls) :: rest, cartId, newLs =>
      if i = cartId then (i, newLs) :: rest else (i, ls) :: storeSet rest cartId newLs

/-- backendCreateCart models cartCreate: mint a fresh id, store an empty cart,
return its rendering. -/
def backendCreateCart (b : Backend) : Backend × Cart :=
  let cartId := mkCartId b.counter
  (⟨(cartId, []) :: b.carts, b.counter + 1⟩, renderCart cartId [])

/-- backendAddLine models cartLinesAdd: append the line when the cart exists
and return the full updated cart, `none` when the cart id is unknown. Each add
appends one stored line (the real backend may merge lines of the same variant;
no verified claim observes the difference). -/
def backendAddLine (b : Backend) (cartId variantId : String) (quantity : Nat) :
    Backend × Option Cart :=
  match storeFind b.carts cartId with
  | none => (b, none)
  | some ls =>
      let ls2 := ls ++ [⟨variantId, quantity⟩]
      (⟨storeAdd b.carts cartId ⟨variantId, quantity⟩, b.counter⟩, some (renderCart cartId ls2))

/-- backendRemoveLines models cartLinesRemove: drop the lines whose rendered
line id is listed and return the full updated cart. -/
def backendRemoveLines (b : Backend) (cartId : String) (lineIds : List String) :
    Backend × Option Cart :=
  match storeFind b.carts cartId with
  | none => (b, none)
  | some ls =>
      let ls2 := (ls.enum.filter (fun p => ¬ mkLineId cartId p.1 ∈ lineIds)).map Prod.snd
      (⟨storeSet b.carts cartId ls2, b.counter⟩, some (renderCart cartId ls2))

/-- GraphQLCartResponse is the response shape consumed by `getCart` in
src/lib/shopify.ts: a possible transport-level error and the nullable cart. -/
structure GraphQLCartResponse where
  errors : Option String
  cart : Option Cart

/-- getCartFromResponse embeds `getCart` of src/lib/shopify.ts: throw on
response.errors, otherwise return data.cart as is — `null` (none) when the
backend reports the cart absent or expired. -/
def getCartFromResponse (response : GraphQLCartResponse) : Except String (Option Cart) :=
  match response.errors with
  | some e => Except.error ("Shopify API error: " ++ e)
  | none => Except.ok response.cart

/-- GraphQLMutationResponse is the response shape consumed by the cart
mutations in src/lib/shopify.ts: transport-level errors, user errors, and the
cart payload of the mutation. -/
structure GraphQLMutationResponse where
  errors : Option String
  userErrors : List String
  cart : Cart

/-- mutationCartFromResponse embeds the shared logic of `createCart`,
`addToCart` and `removeFromCart` in src/lib/shopify.ts: throw on
response.errors, throw the joined message on userErrors, otherwise return the
response cart verbatim. -/
def mutationCartFromResponse (label : String) (response : GraphQLMutationResponse) :
    Except String Cart :=
  match response.errors with
  | some e => Except.error ("Shopify API error: " ++ e)
  | none =>
      if response.userErrors = [] then Except.ok response.cart
      else Except.error (label ++ ": " ++ String.intercalate ", " response.userErrors)

/-- shopifyGetCart composes `getCart` with the modelled backend: the model
produces no transport errors, and an unknown id renders as a null cart. -/
def shopifyGetCart (b : Backend) (cartId : String) : Except String (Option Cart) :=
  getCartFromResponse ⟨none, (storeFind b.carts cartId).map (renderCart cartId)⟩

/-- shopifyCreateCart composes `createCart` with the modelled backend. -/
def shopifyCreateCart (b : Backend) : Backend × Cart :=
  backendCreateCart b

/-- shopifyAddToCart composes `addToCart` of src/lib/shopify.ts with the
modelled backend: an unknown cart id surfaces as a thrown error, a successful
mutation returns the full updated cart. -/
def shopifyAddToCart (b : Backend) (cartId variantId : String) (quantity : Nat) :
    Backend × Except String Cart :=
  match backendAddLine b cartId variantId quantity with
  | (b2, none) => (b2, Except.error "Add to cart errors: cart does not exist")
  | (b2, some c) => (b2, mutationCartFromResponse "Add to cart errors" ⟨none, [], c⟩)

/-- shopifyRemoveFromCart composes `removeFromCart` of src/lib/shopify.ts with
the modelled backend. -/
def shopifyRemoveFromCart (b : Backend) (cartId : String) (lineIds : List String) :
    Backend × Except String Cart :=
  match backendRemoveLines b cartId lineIds with
  | (b2, none) => (b2, Except.error "Remove from cart errors: cart does not exist")
  | (b2, some c) => (b2, mutationCartFromResponse "Remove from cart errors" ⟨none, [], c⟩)

/-- ZIssue is one zod validation issue: the field path and a message, the
field-level detail returned in 400 responses. -/
structure ZIssue where
  path : List String
  message : String
deriving DecidableEq, Repr

/-- CartPostBody is the JSON body of POST /api/cart as the route reads it:
every field may be absent. Quantity is a JSON number, modelled as a rational so
that non-integer inputs are representable. -/
structure CartPostBody where
  action : Option String
  cartId : Option String
  variantId : Option String
  quantity : Option Rat
  lineIds : Option (List String)

/-- zParseAdd embeds `addToCartSchema.parse` of src/app/api/cart/route.ts:
cartId and variantId are required strings; quantity must be a positive integer
and defaults to 1 when absent. On failure all collected issues are thrown. -/
def zParseAdd (b : CartPostBody) : Except (List ZIssue) (String × String × Rat) :=
  let cartIdIssues : List ZIssue :=
    match b.cartId with | none => [⟨["cartId"], "Required"⟩] | some _ => []
  let variantIdIssues : List ZIssue :=
    match b.variantId with | none => [⟨["variantId"], "Required"⟩] | some _ => []
  let quantityIssues : List ZIssue :=
    match b.quantity with
    | none => []
    | some q =>
        (if q.den = 1 then [] else [⟨["quantity"], "Expected integer, received float"⟩]) ++
        (if 0 < q then [] else [⟨["quantity"], "Number must be greater than 0"⟩])
  let issues := cartIdIssues ++ variantIdIssues ++ quantityIssues
  if issues = [] then
    match b.cartId, b.variantId with
    | some cid, some vid => Except.ok (cid, vid, b.quantity.getD 1)
    | _, _ => Except.error issues
  else Except.error issues

/-- zParseRemove embeds `removeFromCartSchema.parse` of
src/app/api/cart/route.ts: cartId is a required string and lineIds a required
array of at least one string. -/
def zParseRemove (b : CartPostBody) : Except (List ZIssue) (String × List String) :=
  let cartIdIssues : List ZIssue :=
    match b.cartId with | none => [⟨["cartId"], "Required"⟩] | some _ => []
  let lineIdsIssues : List ZIssue :=
    match b.lineIds with
    | none => [⟨["lineIds"], "Required"⟩]
    | some l => if 1 ≤ l.length then [] else [⟨["lineIds"], "Too small"⟩]
  let issues := cartIdIssues ++ lineIdsIssues
  if issues = [] then
    match b.cartId, b.lineIds with
    | some cid, some l => Except.ok (cid, l)
    | _, _ => Except.error issues
  else Except.error issues

/-- UpstreamCall records one commerce call issued by the cart route, to state
that validation failures reach no upstream call. -/
inductive UpstreamCall where
  | create : UpstreamCall
  | add : String → String → Rat → UpstreamCall
  | remove : String → List String → UpstreamCall
deriving DecidableEq, Repr

/-- CartApiResponse is the observable response of POST /api/cart: status,
error code, field-level details, and the cart payload on success. -/
structure CartApiResponse where
  status : Nat
  errorCode : Option String
  errorMessage : Option String
  details : List ZIssue
  cart : Option Cart
deriving DecidableEq, Repr

/-- cartPOST embeds the POST handler of src/app/api/cart/route.ts over the
modelled backend, also recording which upstream commerce calls were issued.
Validation runs before any upstream call, a zod failure maps to a 400 with the
issues as details, and upstream throws map to a 500 with the thrown message. -/
def cartPOST (b : Backend) (body : CartPostBody) :
    Backend × CartApiResponse × List UpstreamCall :=
  match body.action with
  | some "create" =>
      let (b2, c) := shopifyCreateCart b
      (b2, ⟨200, none, none, [], some c⟩, [UpstreamCall.create])
  | some "add" =>
      (match zParseAdd body with
       | Except.error issues =>
           (b, ⟨400, some "VALIDATION_ERROR", some "Invalid request data", issues, none⟩, [])
       | Except.ok (cid, vid, q) =>
           (match shopifyAddToCart b cid vid q.num.toNat with
            | (b2, Except.ok c) => (b2, ⟨200, none, none, [], some c⟩, [UpstreamCall.add cid vid q])
            | (b2, Except.error e) =>
                (b2, ⟨500, some "INTERNAL_ERROR", some e, [], none⟩, [UpstreamCall.add cid vid q])))
  | some "remove" =>
      (match zParseRemove body with
       | Except.error issues =>
           (b, ⟨400, some "VALIDATION_ERROR", some "Invalid request data", issues, none⟩, [])
       | Except.ok (cid, l) =>
           (match shopifyRemoveFromCart b cid l with
            | (b2, Except.ok c) => (b2, ⟨200, none, none, [], some c⟩, [UpstreamCall.remove cid l])
            | (b2, Except.error e) =>
                (b2, ⟨500, some "INTERNAL_ERROR", some e, [], none⟩, [UpstreamCall.remove cid l])))
  | _ => (b, ⟨400, some "INVALID_ACTION", some "Invalid action", [], none⟩, [])

/-- cartGET embeds the GET handler of src/app/api/cart/route.ts over the
modelled backend, collapsed to the client-observable outcome: 200 with the cart
on success, a thrown "Cart not found" when getCart returns null (the 404
NOT_FOUND branch, whose message the client rethrows). -/
def cartGET (b : Backend) (cartId : String) : Except String Cart :=
  match shopifyGetCart b cartId with
  | Except.error e => Except.error e
  | Except.ok none => Except.error "Cart not found"
  | Except.ok (some c) => Except.ok c

/-- ClientCartState is the client-side cart mirror of src/lib/cart-context.tsx:
the localStorage shopify_cart_id entry, the cart React state, and the error
React state. -/
structure ClientCartState where
  storedCartId : Option String
  cart : Option Cart
  errorMsg : Option String
deriving DecidableEq, Repr

/-- clientCreateCart embeds `createCart` of src/lib/cart-context.tsx over the
modelled route (creation always succeeds in the model): save the new cart id to
localStorage, replace the cart mirror, clear the error. -/
def clientCreateCart (b : Backend) (_s : ClientCartState) :
    Backend × ClientCartState × Cart :=
  let (b2, newCart) := shopifyCreateCart b
  (b2, ⟨some newCart.id, some newCart, none⟩, newCart)

/-- clientFetchCart embeds `fetchCart` of src/lib/cart-context.tsx: on a
non-ok response it stores the error message, discards the stored id and cart
when the message contains "not found", and rethrows; on success it replaces the
cart mirror with the response cart. -/
def clientFetchCart (b : Backend) (s : ClientCartState) (cartId : String) :
    ClientCartState × Except String Cart :=
  match cartGET b cartId with
  | Except.ok c => (⟨s.storedCartId, some c, none⟩, Except.ok c)
  | Except.error msg =>
      if jsIncludes msg "not found" then
        (⟨none, none, some msg⟩, Except.error msg)
      else
        (⟨s.storedCartId, s.cart, some msg⟩, Except.error msg)

/-- clientRefreshCart embeds `refreshCart` of src/lib/cart-context.tsx: with no
stored id, create a cart; with one, fetch it and fall back to creating a fresh
cart when the fetch fails. -/
def clientRefreshCart (b : Backend) (s : ClientCartState) : Backend × ClientCartState :=
  match s.storedCartId with
  | none =>
      let (b2, s2, _) := clientCreateCart b s
      (b2, s2)
  | some cartId =>
      match clientFetchCart b s cartId with
      | (s2, Except.ok _) => (b, s2)
      | (s2, Except.error _) =>
          let (b2, s3, _) := clientCreateCart b s2
          (b2, s3)

/-- clientAddAfterId is the second half of `addToCart` of
src/lib/cart-context.tsx, after the cart id is known: issue the add action and
either replace the whole cart mirror with the response or record the error
message, keeping the previous cart view. -/
def clientAddAfterId (b : Backend) (s : ClientCartState) (cartId variantId : String)
    (quantity : Nat) : Backend × ClientCartState :=
  match cartPOST b ⟨some "add", some cartId, some variantId, some (quantity : Rat), none⟩ with
  | (b2, resp, _) =>
      if resp.status = 200 then
        (b2, ⟨s.storedCartId, resp.cart, none⟩)
      else
        (b2, ⟨s.storedCartId, s.cart, some (resp.errorMessage.getD "Failed to add item to cart")⟩)

/-- clientAddToCart embeds `addToCart` of src/lib/cart-context.tsx: read the
stored cart id, create a cart first when none exists (persisting its id
immediately), then add the line to that id. -/
def clientAddToCart (b : Backend) (s : ClientCartState) (variantId : String)
    (quantity : Nat) : Backend × ClientCartState :=
  match s.storedCartId with
  | some cartId => clientAddAfterId b s cartId variantId quantity
  | none =>
      let (b2, s2, newCart) := clientCreateCart b s
      clientAddAfterId b2 s2 newCart.id variantId quantity

/-- clientRemoveFromCart embeds `removeFromCart` of src/lib/cart-context.tsx:
throw a local error when no cart id is stored, otherwise issue the remove
action and replace the cart mirror on success. -/
def clientRemoveFromCart (b : Backend) (s : ClientCartState) (lineIds : List String) :
    Backend × ClientCartState × Except String Unit :=
  match s.storedCartId with
  | none => (b, s, Except.error "No cart found")
  | some cartId =>
      match cartPOST b ⟨some "remove", some cartId, none, none, some lineIds⟩ with
      | (b2, resp, _) =>
          if resp.status = 200 then
            (b2, ⟨s.storedCartId, resp.cart, none⟩, Except.ok ())
          else
            (b2, ⟨s.storedCartId, s.cart,
                  some (resp.errorMessage.getD "Failed to remove item from cart")⟩,
             Except.error (resp.errorMessage.getD "Failed to remove item from cart"))

/-- runAddSequence folds a sequence of addItem calls (variant id and quantity
pairs) through the client state machine. -/
def runAddSequence (b : Backend) (s : ClientCartState) :
    List (String × Nat) → Backend × ClientCartState
  | [] => (b, s)
  | (v, q) :: rest =>
      let (b2, s2) := clientAddToCart b s v q
      runAddSequence b2 s2 rest

/-- Product is the catalog entry shape used by the by-handles route, reduced to
the fields the route observes. -/
structure Product where
  handle : String
  title : String
deriving DecidableEq, Repr

/-- handlesSchemaParse embeds `handlesSchema.parse` of the by-handles route in
src/scripts/seed-products.ts: an array of at most 10 strings. -/
def handlesSchemaParse (body : List String) : Except (List ZIssue) (List String) :=
  if body.length ≤ 10 then Except.ok body
  else Except.error [⟨[], "Array must contain at most 10 elements"⟩]

/-- ByHandlesResponse is the observable response of POST /api/products/by-handles. -/
structure ByHandlesResponse where
  status : Nat
  products : List Product
  errorCode : Option String
deriving DecidableEq, Repr

/-- byHandlesPOST embeds the POST handler of /api/products/by-handles
(src/scripts/seed-products.ts): validate the handle list, fetch every handle
with a per-handle catch that turns a throw into null, drop the nulls, and
return the survivors; an oversized list maps to a 400 validation response. The
per-handle fetch is passed in as a function returning `Except.error` for a
throw and `Except.ok none` for an unresolved handle. -/
def byHandlesPOST (fetchProduct : String → Except String (Option Product))
    (body : List String) : ByHandlesResponse :=
  match handlesSchemaParse body with
  | Except.error _ => ⟨400, [], some "VALIDATION_ERROR"⟩
  | Except.ok handles =>
      let results := handles.map (fun h =>
        match fetchProduct h with
        | Except.ok r => r
        | Except.error _ => none)
      ⟨200, results.filterMap id, none⟩

/-- fetchProductW is a concrete per-handle resolver used to evaluate the
by-handles route at a concrete input: "x" resolves, "boom" throws, everything
else is unresolved. -/
def fetchProductW : String → Except String (Option Product) :=
  fun h =>
    if h = "x" then Except.ok (some ⟨"x", "Product X"⟩)
    else if h = "boom" then Except.error "upstream failure"
    else Except.ok none

theorem toInt32_congr {x y : Int} (h : x % 4294967296 = y % 4294967296) :
    toInt32 x = toInt32 y := by
  unfold toInt32
  simp only [h]

theorem toInt32_emod (x : Int) : toInt32 x % 4294967296 = x % 4294967296 := by
  unfold toInt32
  split <;> omega

theorem hashStep_eq_claimHashStep : hashStep = claimHashStep := by
  funext h c
  unfold hashStep claimHashStep
  apply toInt32_congr
  have h32 := toInt32_emod (h * 32)
  have hpow : (2 : Int) ^ 5 = 32 := by norm_num
  rw [hpow]
  omega

theorem hashIdentifier_eq_claim (uid : List Nat) :
    hashIdentifier uid = uid.foldl claimHashStep 0 := by
  unfold hashIdentifier
  rw [hashStep_eq_claimHashStep]

/-- C2: the variant assignment hashes the identity with the rolling
shift-by-5-minus-hash-plus-code update wrapped to signed 32 bits, indexes the
variant list by the absolute value of the hash modulo the variant count, and is
deterministic: 1000 repeat evaluations on the same identity all yield the same
variant. -/
theorem assignVariant_spec (test : ABTest) (uid : List Nat)
    (h : 0 < test.variants.length) :
    assignVariant test uid =
      test.variants.get
        ⟨(uid.foldl claimHashStep 0).natAbs % test.variants.length, Nat.mod_lt _ h⟩ ∧
    (List.replicate 1000 uid).map (assignVariant test) =
      List.replicate 1000 (assignVariant test uid) := by
  constructor
  · unfold assignVariant
    rw [hashIdentifier_eq_claim, List.getD_eq_getElem _ _ (Nat.mod_lt _ h)]
    exact (List.get_eq_getElem test.variants ⟨_, Nat.mod_lt _ h⟩).symm
  · rw [List.map_replicate]

/-- Witness for C2 at the identity with code units 97, 98 and the declared
hero-cta test. -/
theorem assignVariant_spec_witness :
    0 < heroCta.variants.length ∧
      assignVariant heroCta [97, 98] =
        heroCta.variants.get
          ⟨(([97, 98] : List Nat).foldl claimHashStep 0).natAbs % heroCta.variants.length,
            Nat.mod_lt _ (by decide)⟩ :=
  ⟨by decide, (assignVariant_spec heroCta [97, 98] (by decide)).1⟩

/-- C5: adding a handle to the recently-viewed list puts it at the front,
removes its previous occurrence, caps the list at 3; the sequence a, b, c, a
starting from the empty list yields exactly a, c, b. -/
theorem addToRecentlyViewed_spec :
    (∀ (current : List String) (handle : String),
        (addToRecentlyViewed handle current).head? = some handle ∧
        (addToRecentlyViewed handle current).length ≤ 3 ∧
        (addToRecentlyViewed handle current).tail =
          (current.filter (fun h => h ≠ handle)).take 2 ∧
        handle ∉ (addToRecentlyViewed handle current).tail) ∧
    ["a", "b", "c", "a"].foldl (fun acc h => addToRecentlyViewed h acc) [] =
      ["a", "c", "b"] := by
  constructor
  · intro current handle
    refine ⟨rfl, List.length_take_le _ _, rfl, ?_⟩
    intro hmem
    have h2 := List.take_subset 2 _ hmem
    have h3 := List.of_mem_filter h2
    simp at h3
  · decide

/-- C8 counterexample: the cookie-tier reader propagates the JSON.parse
exception on a corrupted stored value instead of returning an empty list. -/
theorem getRecentlyViewedCookie_throws_on_corrupt :
    getRecentlyViewedCookie (some (Except.error "Unexpected token")) =
      Except.error "Unexpected token" := rfl

/-- C8 (amended): the localStorage-tier reader returns an empty list when the
stored value is missing, unparsable or not an array; the cookie-tier reader
returns an empty array only when the cookie is missing, propagates the parse
exception on an unparsable value, and returns the parsed value unvalidated
otherwise. -/
theorem recentlyViewed_read_amended :
    (getRecentlyViewedLocal none = [] ∧
      (∀ e, getRecentlyViewedLocal (some (Except.error e)) = []) ∧
      (∀ j, j.isArr = false → getRecentlyViewedLocal (some (Except.ok j)) = [])) ∧
    (getRecentlyViewedCookie none = Except.ok (Json.jarr []) ∧
      (∀ e, getRecentlyViewedCookie (some (Except.error e)) = Except.error e) ∧
      (∀ j, getRecentlyViewedCookie (some (Except.ok j)) = Except.ok j)) := by
  refine ⟨⟨rfl, fun e => rfl, fun j hj => ?_⟩, rfl, fun e => rfl, fun j => rfl⟩
  cases j <;> first
    | rfl
    | simp [Json.isArr] at hj

/-- Witness for C8 (amended) at the non-array parse result null. -/
theorem recentlyViewed_read_amended_witness :
    Json.isArr Json.jnull = false ∧
      getRecentlyViewedLocal (some (Except.ok Json.jnull)) = [] :=
  ⟨rfl, recentlyViewed_read_amended.1.2.2 Json.jnull rfl⟩

/-- Witness for C5 at the list with one other handle. -/
theorem addToRecentlyViewed_spec_witness :
    (addToRecentlyViewed "a" ["b"]).head? = some "a" :=
  (addToRecentlyViewed_spec.1 ["b"] "a").1

/-- C10: every A/B variant reader returns the default whenever its cookie is
absent or carries an empty value, the hook delegates to the cookie reader, the
server reader hard-codes the default "control", and a reader output is only
ever the default or a value taken from an existing cookie entry — readers never
compute an assignment. -/
theorem abVariant_readers_default :
    (∀ (jar : List String) (name d : String),
        jar.find? (fun c => jsStarts c (name ++ "=")) = none →
        getABVariant true jar name d = d) ∧
    (∀ (jar : List String) (name d cookie : String),
        jar.find? (fun c => jsStarts c (name ++ "=")) = some cookie →
        (jsSplitOnChar cookie '=').getD 1 "" = "" →
        getABVariant true jar name d = d) ∧
    (∀ (hw : Bool) (jar : List String) (name d : String),
        useABVariant hw jar name d = getABVariant hw jar name d) ∧
    (∀ (store : String → Option String) (name : String),
        store name = none → getABVariantServer store name = "control") ∧
    (∀ (store : String → Option String) (name : String),
        store name = some "" → getABVariantServer store name = "control") ∧
    (∀ (hw : Bool) (jar : List String) (name d : String),
        getABVariant hw jar name d = d ∨
        ∃ cookie, cookie ∈ jar ∧ jsStarts cookie (name ++ "=") = true ∧
          getABVariant hw jar name d = (jsSplitOnChar cookie '=').getD 1 "") := by
  refine ⟨?_, ?_, ?_, ?_, ?_, ?_⟩
  · intro jar name d hfind
    simp [getABVariant, hfind]
  · intro jar name d cookie hfind hval
    simp at hval
    simp [getABVariant, hfind, hval]
  · intro hw jar name d
    cases hw <;> simp [useABVariant, getABVariant]
  · intro store name hstore
    simp [getABVariantServer, hstore]
  · intro store name hstore
    simp [getABVariantServer, hstore]
  · intro hw jar name d
    cases hw with
    | false => left; rfl
    | true =>
        cases hfind : jar.find? (fun c => jsStarts c (name ++ "=")) with
        | none => left; simp [getABVariant, hfind]
        | some cookie =>
            by_cases hval : (jsSplitOnChar cookie '=').getD 1 "" = ""
            · left
              simp at hval
              simp [getABVariant, hfind, hval]
            · right
              refine ⟨cookie, List.mem_of_find?_eq_some hfind, ?_, ?_⟩
              · have hp := List.find?_some hfind
                simpa using hp
              · simp at hval
                simp [getABVariant, hfind, hval]

/-- Witness for C10: an unrelated cookie jar yields the default, and the
server reader maps an empty cookie value to "control". -/
theorem abVariant_readers_default_witness :
    getABVariant true ["foo=bar"] "ab_hero_cta" "control" = "control" ∧
    getABVariantServer (fun _ => some "") "ab_hero_cta" = "control" :=
  ⟨abVariant_readers_default.1 ["foo=bar"] "ab_hero_cta" "control" (by decide),
   abVariant_readers_default.2.2.2.2.1 (fun _ => some "") "ab_hero_cta" rfl⟩

/-- C3: for every declared test, a request cookie whose value is a declared
variant is reused unchanged with no cookie write (so a valid assignment is
stable across requests), and any other request cookie state leads to a
computed assignment written as a cookie with a 30-day max-age and mirrored in
the response header. -/
theorem middleware_variant_idempotent (isProd : Bool) (test : ABTest)
    (ht : test ∈ AB_TESTS) (uid : List Nat) :
    (∀ v, v ∈ test.variants →
        processABTest isProd test (some v) uid = ⟨v, none⟩) ∧
    (∀ requestCookie : Option String,
        (∀ v, requestCookie = some v → v ∉ test.variants) →
        processABTest isProd test requestCookie uid = assignCookie isProd test uid ∧
        ∃ sc, (processABTest isProd test requestCookie uid).setCookie = some sc ∧
          sc.value = assignVariant test uid ∧
          sc.maxAge = 60 * 60 * 24 * 30 ∧
          (processABTest isProd test requestCookie uid).headerValue =
            assignVariant test uid) := by
  have htest : test = heroCta := by
    simpa [AB_TESTS] using ht
  subst htest
  constructor
  · intro v hv
    have hv' : v = "control" ∨ v = "variant-a" := by
      simpa [heroCta] using hv
    rcases hv' with h | h <;> subst h <;> rfl
  · intro rc hrc
    have hproc : processABTest isProd heroCta rc uid = assignCookie isProd heroCta uid := by
      cases rc with
      | none => rfl
      | some v =>
          have hv := hrc v rfl
          simp only [processABTest]
          rw [if_neg]
          intro hcon
          exact hv hcon.2
    refine ⟨hproc, ?_⟩
    rw [hproc]
    exact ⟨_, rfl, rfl, rfl, rfl⟩

/-- Witness for C3: a valid control cookie on the hero-cta test is reused. -/
theorem middleware_variant_idempotent_witness :
    processABTest false heroCta (some "control") [97] = ⟨"control", none⟩ :=
  (middleware_variant_idempotent false heroCta (by decide) [97]).1 "control" (by decide)

/-- C7: a body of at most 10 handle strings yields a 200 response holding
exactly the successfully resolved products, unresolved or throwing handles
contributing nothing; a body of more than 10 strings yields a 400 validation
response. -/
theorem byHandlesPOST_spec (fetchProduct : String → Except String (Option Product))
    (body : List String) :
    (body.length ≤ 10 →
        byHandlesPOST fetchProduct body =
          ⟨200,
            body.filterMap (fun h =>
              match fetchProduct h with
              | Except.ok r => r
              | Except.error _ => none),
            none⟩) ∧
    (10 < body.length →
        byHandlesPOST fetchProduct body = ⟨400, [], some "VALIDATION_ERROR"⟩) := by
  constructor
  · intro hle
    unfold byHandlesPOST handlesSchemaParse
    rw [if_pos hle]
    simp [List.filterMap_map]
  · intro hgt
    unfold byHandlesPOST handlesSchemaParse
    rw [if_neg (by omega)]

/-- Witness for C7: a two-handle body where one handle resolves and one
throws, and an eleven-handle body. -/
theorem byHandlesPOST_spec_witness :
    byHandlesPOST fetchProductW ["x", "boom"] = ⟨200, [⟨"x", "Product X"⟩], none⟩ ∧
    byHandlesPOST fetchProductW (List.replicate 11 "x") =
      ⟨400, [], some "VALIDATION_ERROR"⟩ := by
  constructor
  · rw [(byHandlesPOST_spec fetchProductW ["x", "boom"]).1 (by decide)]
    decide
  · exact (byHandlesPOST_spec fetchProductW (List.replicate 11 "x")).2 (by decide)

/-- C6: a POST /api/cart add action whose quantity is not a positive integer,
or a remove action with an empty lineIds array, yields a 400 response carrying
a field-level issue for the offending field, and no upstream commerce call is
issued. -/
theorem cartPOST_validation_no_upstream (b : Backend) (body : CartPostBody) :
    (body.action = some "add" →
        ∀ q : Rat, body.quantity = some q → ¬(q.den = 1 ∧ 0 < q) →
        (cartPOST b body).2.1.status = 400 ∧
        (cartPOST b body).2.1.errorCode = some "VALIDATION_ERROR" ∧
        (∃ i ∈ (cartPOST b body).2.1.details, i.path = ["quantity"]) ∧
        (cartPOST b body).2.2 = []) ∧
    (body.action = some "remove" → body.lineIds = some [] →
        (cartPOST b body).2.1.status = 400 ∧
        (cartPOST b body).2.1.errorCode = some "VALIDATION_ERROR" ∧
        (∃ i ∈ (cartPOST b body).2.1.details, i.path = ["lineIds"]) ∧
        (cartPOST b body).2.2 = []) := by
  obtain ⟨a, cid, vid, qty, lids⟩ := body
  constructor
  · intro ha q hq hbad
    simp only at ha hq
    subst ha
    subst hq
    by_cases h1 : q.den = 1
    · have h2 : ¬ 0 < q := fun h => hbad ⟨h1, h⟩
      cases cid <;> cases vid <;> simp [cartPOST, zParseAdd, h1, h2]
    · cases cid <;> cases vid <;> simp [cartPOST, zParseAdd, h1]
  · intro ha hl
    simp only at ha hl
    subst ha
    subst hl
    cases cid <;> simp [cartPOST, zParseRemove]

/-- Witness for C6: a non-integer quantity of 3/2 on an add action, and an
empty lineIds array on a remove action. -/
theorem cartPOST_validation_no_upstream_witness :
    (cartPOST ⟨[], 0⟩ ⟨some "add", some "c1", some "v1", some (mkRat 3 2), none⟩).2.1.status
        = 400 ∧
    (cartPOST ⟨[], 0⟩ ⟨some "remove", some "c1", none, none, some []⟩).2.2 = [] :=
  ⟨((cartPOST_validation_no_upstream ⟨[], 0⟩
      ⟨some "add", some "c1", some "v1", some (mkRat 3 2), none⟩).1
        rfl (mkRat 3 2) rfl (by decide)).1,
   ((cartPOST_validation_no_upstream ⟨[], 0⟩
      ⟨some "remove", some "c1", none, none, some []⟩).2 rfl rfl).2.2.2⟩

/-- C4: getCart returns null rather than throwing when the backend reports the
cart absent, and the client refresh flow reacts to a failed fetch of a stored
identifier that the backend no longer knows by discarding it and creating a
fresh cart, ending in a ready state with no surfaced error. -/
theorem getCart_null_and_refresh_recovers :
    (∀ response : GraphQLCartResponse,
        response.errors = none → response.cart = none →
        getCartFromResponse response = Except.ok none) ∧
    (∀ (b : Backend) (s : ClientCartState) (cartId : String),
        s.storedCartId = some cartId →
        storeFind b.carts cartId = none →
        clientRefreshCart b s =
          (⟨(mkCartId b.counter, []) :: b.carts, b.counter + 1⟩,
           ⟨some (mkCartId b.counter), some (renderCart (mkCartId b.counter) []), none⟩)) := by
  constructor
  · intro r h1 h2
    simp [getCartFromResponse, h1, h2]
  · intro b s cartId hs hfind
    have hget : cartGET b cartId = Except.error "Cart not found" := by
      simp [cartGET, shopifyGetCart, getCartFromResponse, hfind]
    have hinc : jsIncludes "Cart not found" "not found" = true := by decide
    simp [clientRefreshCart, hs, clientFetchCart, hget, hinc,
      clientCreateCart, shopifyCreateCart, backendCreateCart, renderCart]

/-- Witness for C4: an errorless null response, and a stored identifier absent
from the backend store. -/
theorem getCart_null_and_refresh_recovers_witness :
    getCartFromResponse ⟨none, none⟩ = Except.ok none ∧
    clientRefreshCart ⟨[("other", [])], 7⟩ ⟨some "gone", none, none⟩ =
      (⟨(mkCartId 7, []) :: [("other", [])], 8⟩,
       ⟨some (mkCartId 7), some (renderCart (mkCartId 7) []), none⟩) :=
  ⟨getCart_null_and_refresh_recovers.1 ⟨none, none⟩ rfl rfl,
   getCart_null_and_refresh_recovers.2 ⟨[("other", [])], 7⟩ ⟨some "gone", none, none⟩
     "gone" rfl (by decide)⟩

theorem cartInv_renderCart (cartId : String) (ls : List BackendLine) :
    cartInv (renderCart cartId ls) := by
  show (ls.map (fun l => l.quantity)).sum =
    ((ls.enum.map (fun p =>
        (⟨mkLineId cartId p.1, p.2.quantity, p.2.merchandiseId⟩ : CartLine))).map
      (fun l => l.quantity)).sum
  rw [List.map_map]
  rw [show ((fun (l : CartLine) => l.quantity) ∘ fun (p : Nat × BackendLine) =>
      (⟨mkLineId cartId p.1, p.2.quantity, p.2.merchandiseId⟩ : CartLine)) =
      ((fun (l : BackendLine) => l.quantity) ∘ Prod.snd) from rfl]
  rw [← List.map_map, List.enum_map_snd]

theorem shopifyAddToCart_ok {b b2 : Backend} {cid vid : String} {q : Nat} {c : Cart}
    (h : shopifyAddToCart b cid vid q = (b2, Except.ok c)) :
    ∃ ls, c = renderCart cid ls := by
  unfold shopifyAddToCart backendAddLine at h
  cases hf : storeFind b.carts cid with
  | none => rw [hf] at h; simp at h
  | some ls =>
      rw [hf] at h
      simp [mutationCartFromResponse] at h
      exact ⟨ls ++ [⟨vid, q⟩], h.2.symm⟩

theorem shopifyRemoveFromCart_ok {b b2 : Backend} {cid : String} {lineIds : List String}
    {c : Cart} (h : shopifyRemoveFromCart b cid lineIds = (b2, Except.ok c)) :
    ∃ ls, c = renderCart cid ls := by
  unfold shopifyRemoveFromCart backendRemoveLines at h
  cases hf : storeFind b.carts cid with
  | none => rw [hf] at h; simp at h
  | some ls =>
      rw [hf] at h
      simp [mutationCartFromResponse] at h
      exact ⟨_, h.2.symm⟩

theorem cartGET_ok {b : Backend} {cid : String} {c : Cart}
    (h : cartGET b cid = Except.ok c) : ∃ ls, c = renderCart cid ls := by
  unfold cartGET shopifyGetCart getCartFromResponse at h
  cases hf : storeFind b.carts cid with
  | none => rw [hf] at h; simp at h
  | some ls => rw [hf] at h; simp at h; exact ⟨ls, h.symm⟩

theorem cartPOST_status200 (b : Backend) (body : CartPostBody)
    (h : (cartPOST b body).2.1.status = 200) :
    ∃ cartId ls, (cartPOST b body).2.1.cart = some (renderCart cartId ls) := by
  obtain ⟨a, cid, vid, qty, lids⟩ := body
  cases a with
  | none => simp [cartPOST] at h
  | some s =>
      by_cases h1 : s = "create"
      · subst h1
        refine ⟨mkCartId b.counter, [], ?_⟩
        simp [cartPOST, shopifyCreateCart, backendCreateCart]
      · by_cases h2 : s = "add"
        · subst h2
          cases hz : zParseAdd ⟨some "add", cid, vid, qty, lids⟩ with
          | error issues => simp [cartPOST, hz] at h
          | ok t =>
              obtain ⟨pcid, pvid, pq⟩ := t
              cases hsc : shopifyAddToCart b pcid pvid pq.num.toNat with
              | mk b2 r =>
                  cases r with
                  | error e => simp [cartPOST, hz, hsc] at h
                  | ok c =>
                      obtain ⟨ls, hc⟩ := shopifyAddToCart_ok hsc
                      refine ⟨pcid, ls, ?_⟩
                      simp [cartPOST, hz, hsc, hc]
        · by_cases h3 : s = "remove"
          · subst h3
            cases hz : zParseRemove ⟨some "remove", cid, vid, qty, lids⟩ with
            | error issues => simp [cartPOST, hz] at h
            | ok t =>
                obtain ⟨pcid, pl⟩ := t
                cases hsc : shopifyRemoveFromCart b pcid pl with
                | mk b2 r =>
                    cases r with
                    | error e => simp [cartPOST, hz, hsc] at h
                    | ok c =>
                        obtain ⟨ls, hc⟩ := shopifyRemoveFromCart_ok hsc
                        refine ⟨pcid, ls, ?_⟩
                        simp [cartPOST, hz, hsc, hc]
          · simp [cartPOST, h1, h2, h3] at h

theorem clientAddAfterId_wholesale (b : Backend) (s : ClientCartState)
    (cid vid : String) (q : Nat) :
    (clientAddAfterId b s cid vid q).2.cart = s.cart ∨
    ∃ c, (clientAddAfterId b s cid vid q).2.cart = some c ∧ cartInv c := by
  rcases hcp : cartPOST b ⟨some "add", some cid, some vid, some (q : Rat), none⟩
    with ⟨b2, resp, calls⟩
  by_cases hst : resp.status = 200
  · right
    have h200 : (cartPOST b
        ⟨some "add", some cid, some vid, some (q : Rat), none⟩).2.1.status = 200 := by
      rw [hcp]; exact hst
    obtain ⟨cartId, ls, hcart⟩ := cartPOST_status200 _ _ h200
    rw [hcp] at hcart
    dsimp only at hcart
    refine ⟨renderCart cartId ls, ?_, cartInv_renderCart _ _⟩
    simp only [clientAddAfterId, hcp]
    simp [hst, hcart]
  · left
    simp only [clientAddAfterId, hcp]
    simp [hst]

theorem clientAddToCart_wholesale (b : Backend) (s : ClientCartState)
    (v : String) (q : Nat) :
    (clientAddToCart b s v q).2.cart = s.cart ∨
    ∃ c, (clientAddToCart b s v q).2.cart = some c ∧ cartInv c := by
  cases hs : s.storedCartId with
  | some cid =>
      have h := clientAddAfterId_wholesale b s cid v q
      simpa [clientAddToCart, hs] using h
  | none =>
      have h := clientAddAfterId_wholesale
        ⟨(mkCartId b.counter, []) :: b.carts, b.counter + 1⟩
        ⟨some (mkCartId b.counter), some (renderCart (mkCartId b.counter) []), none⟩
        (renderCart (mkCartId b.counter) []).id v q
      rcases h with h | h
      · right
        refine ⟨renderCart (mkCartId b.counter) [], ?_, cartInv_renderCart _ _⟩
        simp only [clientAddToCart, hs, clientCreateCart, shopifyCreateCart,
          backendCreateCart]
        simpa using h
      · right
        obtain ⟨c, hc, hinv⟩ := h
        refine ⟨c, ?_, hinv⟩
        simp only [clientAddToCart, hs, clientCreateCart, shopifyCreateCart,
          backendCreateCart]
        simpa using hc

theorem clientRemoveFromCart_wholesale (b : Backend) (s : ClientCartState)
    (lineIds : List String) :
    (clientRemoveFromCart b s lineIds).2.1.cart = s.cart ∨
    ∃ c, (clientRemoveFromCart b s lineIds).2.1.cart = some c ∧ cartInv c := by
  cases hs : s.storedCartId with
  | none => left; simp [clientRemoveFromCart, hs]
  | some cid =>
      rcases hcp : cartPOST b ⟨some "remove", some cid, none, none, some lineIds⟩
        with ⟨b2, resp, calls⟩
      by_cases hst : resp.status = 200
      · right
        have h200 : (cartPOST b
            ⟨some "remove", some cid, none, none, some lineIds⟩).2.1.status = 200 := by
          rw [hcp]; exact hst
        obtain ⟨cartId, ls, hcart⟩ := cartPOST_status200 _ _ h200
        rw [hcp] at hcart
        dsimp only at hcart
        refine ⟨renderCart cartId ls, ?_, cartInv_renderCart _ _⟩
        simp only [clientRemoveFromCart, hs, hcp]
        simp [hst, hcart]
      · left
        simp only [clientRemoveFromCart, hs, hcp]
        simp [hst]

theorem clientRefreshCart_wholesale (b : Backend) (s : ClientCartState) :
    (clientRefreshCart b s).2.cart = s.cart ∨
    ∃ c, (clientRefreshCart b s).2.cart = some c ∧ cartInv c := by
  cases hs : s.storedCartId with
  | none =>
      right
      refine ⟨renderCart (mkCartId b.counter) [], ?_, cartInv_renderCart _ _⟩
      simp [clientRefreshCart, hs, clientCreateCart, shopifyCreateCart, backendCreateCart]
  | some cid =>
      cases hg : cartGET b cid with
      | ok c =>
          right
          obtain ⟨ls, hc⟩ := cartGET_ok hg
          refine ⟨c, ?_, by rw [hc]; exact cartInv_renderCart _ _⟩
          simp [clientRefreshCart, hs, clientFetchCart, hg]
      | error e =>
          right
          refine ⟨renderCart (mkCartId b.counter) [], ?_, cartInv_renderCart _ _⟩
          by_cases hinc : jsIncludes e "not found" = true
          · simp [clientRefreshCart, hs, clientFetchCart, hg, hinc,
              clientCreateCart, shopifyCreateCart, backendCreateCart]
          · simp [clientRefreshCart, hs, clientFetchCart, hg, hinc,
              clientCreateCart, shopifyCreateCart, backendCreateCart]

/-- C9: every Cart returned by the cart operations (create, get, add line,
remove line) has totalQuantity equal to the sum of its line quantities; the
mutation wrapper returns the backend response cart verbatim; and the client
cart mirror is only ever replaced wholesale by such a returned cart — a client
step either keeps the mirror unchanged or installs a full returned cart that
satisfies the invariant. -/
theorem cart_totalQuantity_invariant :
    (∀ b : Backend, cartInv (shopifyCreateCart b).2) ∧
    (∀ (b : Backend) (cartId : String) (c : Cart),
        shopifyGetCart b cartId = Except.ok (some c) → cartInv c) ∧
    (∀ (b b2 : Backend) (cartId variantId : String) (q : Nat) (c : Cart),
        shopifyAddToCart b cartId variantId q = (b2, Except.ok c) → cartInv c) ∧
    (∀ (b b2 : Backend) (cartId : String) (lineIds : List String) (c : Cart),
        shopifyRemoveFromCart b cartId lineIds = (b2, Except.ok c) → cartInv c) ∧
    (∀ (label : String) (r : GraphQLMutationResponse) (c : Cart),
        mutationCartFromResponse label r = Except.ok c → c = r.cart) ∧
    (∀ (b : Backend) (s : ClientCartState) (v : String) (q : Nat),
        (clientAddToCart b s v q).2.cart = s.cart ∨
        ∃ c, (clientAddToCart b s v q).2.cart = some c ∧ cartInv c) ∧
    (∀ (b : Backend) (s : ClientCartState) (lineIds : List String),
        (clientRemoveFromCart b s lineIds).2.1.cart = s.cart ∨
        ∃ c, (clientRemoveFromCart b s lineIds).2.1.cart = some c ∧ cartInv c) ∧
    (∀ (b : Backend) (s : ClientCartState),
        (clientRefreshCart b s).2.cart = s.cart ∨
        ∃ c, (clientRefreshCart b s).2.cart = some c ∧ cartInv c) := by
  refine ⟨?_, ?_, ?_, ?_, ?_, clientAddToCart_wholesale, clientRemoveFromCart_wholesale,
    clientRefreshCart_wholesale⟩
  · intro b
    exact cartInv_renderCart _ _
  · intro b cartId c h
    unfold shopifyGetCart getCartFromResponse at h
    cases hf : storeFind b.carts cartId with
    | none => rw [hf] at h; simp at h
    | some ls =>
        rw [hf] at h
        simp at h
        rw [← h]
        exact cartInv_renderCart _ _
  · intro b b2 cartId variantId q c h
    obtain ⟨ls, hc⟩ := shopifyAddToCart_ok h
    rw [hc]
    exact cartInv_renderCart _ _
  · intro b b2 cartId lineIds c h
    obtain ⟨ls, hc⟩ := shopifyRemoveFromCart_ok h
    rw [hc]
    exact cartInv_renderCart _ _
  · intro label r c h
    unfold mutationCartFromResponse at h
    cases he : r.errors with
    | some e => rw [he] at h; simp at h
    | none =>
        rw [he] at h
        by_cases hu : r.userErrors = []
        · rw [if_pos hu] at h
          simpa using h.symm
        · rw [if_neg hu] at h
          simp at h

/-- Witness for C9: the cart created on an empty backend, and the cart
returned by adding a quantity-2 line to an existing empty cart. -/
theorem cart_totalQuantity_invariant_witness :
    cartInv (shopifyCreateCart ⟨[], 0⟩).2 ∧
    cartInv (renderCart "c0" [⟨"v", 2⟩]) :=
  ⟨cart_totalQuantity_invariant.1 ⟨[], 0⟩,
   cart_totalQuantity_invariant.2.2.1 ⟨[("c0", [])], 5⟩ ⟨[("c0", [⟨"v", 2⟩])], 5⟩
     "c0" "v" 2 (renderCart "c0" [⟨"v", 2⟩]) rfl⟩

theorem storeAdd_length (st : CartStore) (cid : String) (l : BackendLine) :
    (storeAdd st cid l).length = st.length := by
  induction st with
  | nil => rfl
  | cons p rest ih =>
      obtain ⟨i, ls⟩ := p
      by_cases h : i = cid
      · simp [storeAdd, h]
      · simp [storeAdd, h, ih]

theorem storeFind_storeAdd_self (st : CartStore) (cid : String) (l : BackendLine)
    (ls : List BackendLine) (h : storeFind st cid = some ls) :
    storeFind (storeAdd st cid l) cid = some (ls ++ [l]) := by
  induction st with
  | nil => simp [storeFind] at h
  | cons p rest ih =>
      obtain ⟨i, ls2⟩ := p
      by_cases hi : i = cid
      · subst hi
        simp [storeFind] at h
        subst h
        simp [storeAdd, storeFind]
      · simp [storeFind, hi] at h
        simp [storeAdd, storeFind, hi]
        exact ih h

theorem clientAddAfterId_success (b : Backend) (s : ClientCartState) (cid v : String)
    (q : Nat) (ls : List BackendLine) (hfind : storeFind b.carts cid = some ls)
    (hq : 0 < q) :
    clientAddAfterId b s cid v q =
      (⟨storeAdd b.carts cid ⟨v, q⟩, b.counter⟩,
       ⟨s.storedCartId, some (renderCart cid (ls ++ [⟨v, q⟩])), none⟩) := by
  have hqr : 0 < (q : Rat) := by exact_mod_cast hq
  simp [clientAddAfterId, cartPOST, zParseAdd, shopifyAddToCart, backendAddLine,
    mutationCartFromResponse, hfind, hqr, Rat.den_natCast, Rat.num_natCast,
    Int.toNat_natCast]

theorem runAddSequence_accumulates (items : List (String × Nat)) :
    ∀ (b : Backend) (s : ClientCartState) (cid : String) (ls : List BackendLine),
      s.storedCartId = some cid →
      storeFind b.carts cid = some ls →
      (∀ p ∈ items, 0 < p.2) →
      (runAddSequence b s items).1.counter = b.counter ∧
      (runAddSequence b s items).1.carts.length = b.carts.length ∧
      (runAddSequence b s items).2.storedCartId = some cid ∧
      storeFind (runAddSequence b s items).1.carts cid =
        some (ls ++ items.map (fun p => (⟨p.1, p.2⟩ : BackendLine))) := by
  induction items with
  | nil =>
      intro b s cid ls hs hfind hpos
      simp [runAddSequence, hs, hfind]
  | cons hd tl ih =>
      intro b s cid ls hs hfind hpos
      obtain ⟨v, q⟩ := hd
      have hq : 0 < q := hpos (v, q) (List.mem_cons_self _ _)
      have hstep : clientAddToCart b s v q =
          (⟨storeAdd b.carts cid ⟨v, q⟩, b.counter⟩,
           ⟨some cid, some (renderCart cid (ls ++ [⟨v, q⟩])), none⟩) := by
        simp only [clientAddToCart, hs]
        have hsucc := clientAddAfterId_success b s cid v q ls hfind hq
        rw [hs] at hsucc
        exact hsucc
      have hfind2 : storeFind (storeAdd b.carts cid ⟨v, q⟩) cid = some (ls ++ [⟨v, q⟩]) :=
        storeFind_storeAdd_self _ _ _ _ hfind
      have hpos2 : ∀ p ∈ tl, 0 < p.2 := fun p hp => hpos p (List.mem_cons_of_mem _ hp)
      have ihres := ih ⟨storeAdd b.carts cid ⟨v, q⟩, b.counter⟩
        ⟨some cid, some (renderCart cid (ls ++ [⟨v, q⟩])), none⟩ cid (ls ++ [⟨v, q⟩])
        rfl hfind2 hpos2
      have hrun : runAddSequence b s ((v, q) :: tl) =
          runAddSequence ⟨storeAdd b.carts cid ⟨v, q⟩, b.counter⟩
            ⟨some cid, some (renderCart cid (ls ++ [⟨v, q⟩])), none⟩ tl := by
        simp only [runAddSequence, hstep]
      rw [hrun]
      refine ⟨ihres.1, ?_, ihres.2.2.1, ?_⟩
      · have h2 := ihres.2.1
        rw [storeAdd_length] at h2
        exact h2
      · have h4 := ihres.2.2.2
        simpa [List.append_assoc] using h4

/-- C1: starting with no stored cart identifier, a nonempty sequence of
addItem calls creates exactly one cart — the first call creates it and
persists its identifier — and every line of the sequence accumulates on that
one identifier. -/
theorem addItem_single_cart_creation (b : Backend) (s : ClientCartState)
    (items : List (String × Nat)) (hs : s.storedCartId = none)
    (hpos : ∀ p ∈ items, 0 < p.2) (hne : items ≠ []) :
    (runAddSequence b s items).1.counter = b.counter + 1 ∧
    (runAddSequence b s items).1.carts.length = b.carts.length + 1 ∧
    (runAddSequence b s items).2.storedCartId = some (mkCartId b.counter) ∧
    storeFind (runAddSequence b s items).1.carts (mkCartId b.counter) =
      some (items.map (fun p => (⟨p.1, p.2⟩ : BackendLine))) := by
  cases items with
  | nil => exact absurd rfl hne
  | cons hd tl =>
      obtain ⟨v, q⟩ := hd
      have hq : 0 < q := hpos (v, q) (List.mem_cons_self _ _)
      have hstep : clientAddToCart b s v q =
          (⟨(mkCartId b.counter, [⟨v, q⟩]) :: b.carts, b.counter + 1⟩,
           ⟨some (mkCartId b.counter),
            some (renderCart (mkCartId b.counter) [⟨v, q⟩]), none⟩) := by
        simp only [clientAddToCart, hs, clientCreateCart, shopifyCreateCart,
          backendCreateCart]
        have hfind : storeFind ((mkCartId b.counter, []) :: b.carts) (mkCartId b.counter) =
            some [] := by simp [storeFind]
        have hsucc := clientAddAfterId_success
          ⟨(mkCartId b.counter, []) :: b.carts, b.counter + 1⟩
          ⟨some (mkCartId b.counter), some (renderCart (mkCartId b.counter) []), none⟩
          (mkCartId b.counter) v q [] hfind hq
        simpa [storeAdd] using hsucc
      have hfind2 : storeFind ((mkCartId b.counter, [⟨v, q⟩]) :: b.carts)
          (mkCartId b.counter) = some [⟨v, q⟩] := by simp [storeFind]
      have hpos2 : ∀ p ∈ tl, 0 < p.2 := fun p hp => hpos p (List.mem_cons_of_mem _ hp)
      have ihres := runAddSequence_accumulates tl
        ⟨(mkCartId b.counter, [⟨v, q⟩]) :: b.carts, b.counter + 1⟩
        ⟨some (mkCartId b.counter),
         some (renderCart (mkCartId b.counter) [⟨v, q⟩]), none⟩
        (mkCartId b.counter) [⟨v, q⟩] rfl hfind2 hpos2
      have hrun : runAddSequence b s ((v, q) :: tl) =
          runAddSequence ⟨(mkCartId b.counter, [⟨v, q⟩]) :: b.carts, b.counter + 1⟩
            ⟨some (mkCartId b.counter),
             some (renderCart (mkCartId b.counter) [⟨v, q⟩]), none⟩ tl := by
        simp only [runAddSequence, hstep]
      rw [hrun]
      refine ⟨ihres.1, ?_, ihres.2.2.1, ?_⟩
      · have h2 := ihres.2.1
        simpa using h2
      · have h4 := ihres.2.2.2
        simpa using h4

/-- Witness for C1: two addItem calls on an empty backend with no stored
identifier create one cart holding both lines. -/
theorem addItem_single_cart_creation_witness :
    (runAddSequence ⟨[], 0⟩ ⟨none, none, none⟩ [("v1", 2), ("v2", 1)]).1.counter = 1 ∧
    storeFind (runAddSequence ⟨[], 0⟩ ⟨none, none, none⟩ [("v1", 2), ("v2", 1)]).1.carts
        (mkCartId 0) = some [⟨"v1", 2⟩, ⟨"v2", 1⟩] := by
  have h := addItem_single_cart_creation ⟨[], 0⟩ ⟨none, none, none⟩
    [("v1", 2), ("v2", 1)] rfl (by decide) (by decide)
  exact ⟨h.1, by simpa using h.2.2.2⟩
